import Mathlib

/-!
Shallow embedding of the `SimulationManager` core of the arbiter repository
(src/crates/simulate/src/manager.rs), together with proofs of the specified
properties of `new`, `activate_agent` and `unpack_execution`.

Modelling conventions:
* `bytes::Bytes` payloads are lists of byte values (`List Nat`).
* `revm` addresses (`B160`) are natural numbers; `B160::from_low_u64_be`
  embeds a `u64` value.
* The `HashMap<String, AgentType<IsActive>>` registry is an association list
  with the `HashMap::insert` replace-or-add semantics.
* The crossbeam channel allocator is modelled by a fresh-id counter
  (`nextChannel`); `unbounded()` yields the current counter value as both the
  send end and the receive end and bumps the counter.
* Methods taking `&mut self` return a pair of the Rust return value and the
  post-state; each early `return` carries the state at that program point.
* Opaque payloads that `manager.rs` only moves (event filters, the
  arbitrageur price table, the fields of `AccountInfo`, log records, the
  `Eval` and `Halt` reason enums of `revm`) are given simple concrete carrier
  types; the manager code never inspects them.
-/

/-- Raw byte payload (`bytes::Bytes`), as a list of byte values. -/
abbrev Bytes := List Nat

/-- Backend address (`revm::primitives::B160`). -/
abbrev Address := Nat

/-- `B160::from_low_u64_be`: an address built from a `u64` value. -/
def fromLowU64BE (n : Nat) : Address := n % 2 ^ 64

/-- `u64::MAX`. -/
def U64_MAX : Nat := 2 ^ 64 - 1

/-- Opaque carrier for the agent event-filter set; `manager.rs` only moves it. -/
abbrev EventFilters := Option (List Nat)

/-- Opaque carrier for the arbitrageur observed-prices table; only moved. -/
abbrev Prices := List Nat

/-- Opaque carrier for the `Halt` reason enum of the backend. -/
abbrev HaltReason := Nat

/-- `revm::primitives::AccountInfo`, reduced to the fields the model needs;
the manager only ever builds `AccountInfo::default()` and stores it. -/
structure AccountInfo where
  balance : Nat
  nonce : Nat
  deriving DecidableEq, Repr

/-- `AccountInfo::default()`. -/
def AccountInfo.default : AccountInfo := ⟨0, 0⟩

/-- Per-agent transaction settings (`TransactSettings`). -/
structure TransactSettings where
  gas_limit : Nat
  gas_price : Nat
  deriving DecidableEq, Repr

/-- Error type of the simulation manager (`ManagerError`). -/
structure ManagerError where
  message : String
  output : Option Bytes
  deriving DecidableEq, Repr

/-- A not-yet-activated `User` agent: the fields of `User<NotActive>` that
`manager.rs` reads (`name`, `event_filters`). -/
structure UserNotActive where
  name : String
  event_filters : EventFilters
  deriving DecidableEq, Repr

/-- `User::new(name, event_filters)`. -/
def User.new (name : String) (event_filters : EventFilters) : UserNotActive :=
  ⟨name, event_filters⟩

/-- A not-yet-activated `SimpleArbitrageur` agent. -/
structure SimpleArbitrageurNotActive where
  name : String
  event_filters : EventFilters
  prices : Prices
  deriving DecidableEq, Repr

/-- `AgentType<NotActive>`: the closed agent-kind union before activation. -/
inductive AgentTypeNotActive where
  | User (u : UserNotActive)
  | SimpleArbitrageur (a : SimpleArbitrageurNotActive)
  deriving DecidableEq, Repr

/-- `new_agent.inner().name()` on a not-active agent. -/
def AgentTypeNotActive.name : AgentTypeNotActive → String
  | .User u => u.name
  | .SimpleArbitrageur a => a.name

/-- The event filters carried by a not-active agent. -/
def AgentTypeNotActive.event_filters : AgentTypeNotActive → EventFilters
  | .User u => u.event_filters
  | .SimpleArbitrageur a => a.event_filters

/-- The observed-prices table of a not-active agent (`none` for a `User`). -/
def AgentTypeNotActive.pricesOpt : AgentTypeNotActive → Option Prices
  | .User _ => none
  | .SimpleArbitrageur a => some a.prices

/-- `User<IsActive>`, exactly the fields built at `manager.rs:127`. -/
structure UserIsActive where
  name : String
  address : Address
  account_info : AccountInfo
  transact_settings : TransactSettings
  event_receiver : Nat
  event_filters : EventFilters
  deriving DecidableEq, Repr

/-- `SimpleArbitrageur<IsActive>`, exactly the fields built at `manager.rs:142`. -/
structure SimpleArbitrageurIsActive where
  name : String
  address : Address
  account_info : AccountInfo
  transact_settings : TransactSettings
  event_receiver : Nat
  event_filters : EventFilters
  prices : Prices
  deriving DecidableEq, Repr

/-- `AgentType<IsActive>`: the closed agent-kind union after activation. -/
inductive AgentTypeIsActive where
  | User (u : UserIsActive)
  | SimpleArbitrageur (a : SimpleArbitrageurIsActive)
  deriving DecidableEq, Repr

/-- `agent_in_db.inner().name()`. -/
def AgentTypeIsActive.name : AgentTypeIsActive → String
  | .User u => u.name
  | .SimpleArbitrageur a => a.name

/-- `agent_in_db.inner().address()`. -/
def AgentTypeIsActive.address : AgentTypeIsActive → Address
  | .User u => u.address
  | .SimpleArbitrageur a => a.address

/-- The event filters carried by an active agent. -/
def AgentTypeIsActive.event_filters : AgentTypeIsActive → EventFilters
  | .User u => u.event_filters
  | .SimpleArbitrageur a => a.event_filters

/-- The receive end of the event channel attached to an active agent. -/
def AgentTypeIsActive.event_receiver : AgentTypeIsActive → Nat
  | .User u => u.event_receiver
  | .SimpleArbitrageur a => a.event_receiver

/-- The transaction settings of an active agent. -/
def AgentTypeIsActive.transact_settings : AgentTypeIsActive → TransactSettings
  | .User u => u.transact_settings
  | .SimpleArbitrageur a => a.transact_settings

/-- The observed-prices table of an active agent (`none` for a `User`). -/
def AgentTypeIsActive.pricesOpt : AgentTypeIsActive → Option Prices
  | .User _ => none
  | .SimpleArbitrageur a => some a.prices

/-- Whether an active agent is a `User` variant. -/
def AgentTypeIsActive.isUser : AgentTypeIsActive → Bool
  | .User _ => true
  | .SimpleArbitrageur _ => false

/-- Map insert with `HashMap::insert` semantics on an association list:
the value at the key is replaced if present, otherwise the binding is added. -/
def mapInsert {α β : Type} [BEq α] (k : α) (v : β) (l : List (α × β)) :
    List (α × β) :=
  (k, v) :: l.filter (fun p => !(p.1 == k))

/-- First-match lookup in an association list (`HashMap::get`). -/
def lookupAgent {β : Type} (l : List (String × β)) (k : String) : Option β :=
  match l with
  | [] => none
  | p :: rest => if p.1 == k then some p.2 else lookupAgent rest k

/-- `SimulationEnvironment`, reduced to the state `manager.rs` touches:
the backend account table behind `evm.db()` and the registered event-channel
send ends. -/
structure SimulationEnvironment where
  accounts : List (Address × AccountInfo)
  senders : List Nat
  deriving DecidableEq, Repr

/-- `SimulationEnvironment::new()`: empty backend state, no senders. -/
def SimulationEnvironment.new : SimulationEnvironment := ⟨[], []⟩

/-- `db.insert_account_info(address, account_info)`. -/
def SimulationEnvironment.insert_account_info (e : SimulationEnvironment)
    (addr : Address) (info : AccountInfo) : SimulationEnvironment :=
  { e with accounts := mapInsert addr info e.accounts }

/-- `environment.add_sender(sender)`: registers a new send end. -/
def SimulationEnvironment.add_sender (e : SimulationEnvironment) (s : Nat) :
    SimulationEnvironment :=
  { e with senders := e.senders ++ [s] }

/-- `SimulationManager`: the environment, the name-keyed agent registry, and
the fresh-channel counter modelling `crossbeam_channel::unbounded`. -/
structure SimulationManager where
  environment : SimulationEnvironment
  agents : List (String × AgentTypeIsActive)
  nextChannel : Nat
  deriving DecidableEq, Repr

/-- The manager state built at `manager.rs:66` before the admin is activated. -/
def SimulationManager.empty : SimulationManager :=
  ⟨SimulationEnvironment.new, [], 0⟩

/-- `SimulationManager::activate_agent`, translated statement by statement:
the two uniqueness checks in source order, each early `return Err` leaving the
entry state; then account provisioning, channel creation, materialization of
the `IsActive` agent, registry insert keyed by name, and sender registration. -/
def SimulationManager.activate_agent (m : SimulationManager)
    (new_agent : AgentTypeNotActive) (new_agent_address : Address) :
    Except ManagerError Unit × SimulationManager :=
  if m.agents.any (fun p => p.2.address == new_agent_address) then
    (Except.error
      ⟨"Agent with that address already exists in the simulation environment.",
        none⟩, m)
  else if m.agents.any (fun p => p.1 == new_agent.name) then
    (Except.error
      ⟨"Agent with that name already exists in the simulation environment.",
        none⟩, m)
  else
    let account_info := AccountInfo.default
    let env1 := m.environment.insert_account_info new_agent_address account_info
    let event_sender := m.nextChannel
    let event_receiver := m.nextChannel
    let agents1 :=
      match new_agent with
      | .User user =>
          mapInsert user.name
            (AgentTypeIsActive.User
              ⟨user.name, new_agent_address, account_info,
                ⟨U64_MAX, 0⟩, event_receiver, user.event_filters⟩)
            m.agents
      | .SimpleArbitrageur sa =>
          mapInsert sa.name
            (AgentTypeIsActive.SimpleArbitrageur
              ⟨sa.name, new_agent_address, account_info,
                ⟨U64_MAX, 0⟩, event_receiver, sa.event_filters, sa.prices⟩)
            m.agents
    (Except.ok (), ⟨env1.add_sender event_sender, agents1, m.nextChannel + 1⟩)

/-- `SimulationManager::new()`: start from the empty manager and activate the
admin `User` at `B160::from_low_u64_be(1)`; the post-state is the manager.
The `unwrap` at `manager.rs:73` corresponds to the first component being
`Except.ok ()`, which is proved below. -/
def SimulationManager.new : SimulationManager :=
  (SimulationManager.empty.activate_agent
    (AgentTypeNotActive.User (User.new "admin" none)) (fromLowU64BE 1)).2

/-- `Default::default()` for `SimulationManager` delegates to `new`. -/
def SimulationManager.defaultManager : SimulationManager := SimulationManager.new

/-- `revm::primitives::Output`. -/
inductive Output where
  | Call (value : Bytes)
  | Create (value : Bytes) (address : Option Address)
  deriving DecidableEq, Repr

/-- `revm::primitives::ExecutionResult`: success (with evaluation reason,
gas counters, logs and output), revert (with output bytes and gas used),
halt (with reason and gas used). -/
inductive ExecutionResult where
  | Success (reason : Nat) (gas_used : Nat) (gas_refunded : Nat)
      (logs : List Nat) (output : Output)
  | Revert (output : Bytes) (gas_used : Nat)
  | Halt (reason : HaltReason) (gas_used : Nat)
  deriving DecidableEq, Repr

/-- The `{:#?}` debug rendering of a `Bytes` payload, modelled as an
injective rendering of the byte list. -/
def bytesDebug (b : Bytes) : String := toString b

/-- The `{:#?}` debug rendering of a halt reason. -/
def haltDebug (r : HaltReason) : String := Nat.repr r

/-- The message built by `format!` at `manager.rs:186`. -/
def revertMessage (output : Bytes) (gas_used : Nat) : String :=
  "This call reverted with output " ++ bytesDebug output ++ " and used " ++
    Nat.repr gas_used ++ " gas."

/-- The message built by `format!` at `manager.rs:179`. -/
def haltMessage (reason : HaltReason) (gas_used : Nat) : String :=
  "This call halted for " ++ haltDebug reason ++ " and used " ++
    Nat.repr gas_used ++ " gas."

/-- `SimulationManager::unpack_execution` (a `&self` method: the post-state
is the entry state). -/
def SimulationManager.unpack_execution (m : SimulationManager)
    (execution_result : ExecutionResult) :
    Except ManagerError Bytes × SimulationManager :=
  (match execution_result with
    | .Success _ _ _ _ output =>
        match output with
        | .Call value => Except.ok value
        | .Create value _address => Except.ok value
    | .Halt reason gas_used =>
        Except.error ⟨haltMessage reason gas_used, none⟩
    | .Revert output gas_used =>
        Except.error ⟨revertMessage output gas_used, some output⟩, m)

/-- A sequence of `activate_agent` calls applied in order; a rejected call
leaves the state as it was (the `Err` is returned to the caller). -/
def runActivations (m : SimulationManager) :
    List (AgentTypeNotActive × Address) → SimulationManager
  | [] => m
  | r :: rest => runActivations (m.activate_agent r.1 r.2).2 rest

/-- If no binding of `l` has key `k`, `mapInsert` just adds the binding. -/
theorem mapInsert_absent {β : Type} (k : String) (v : β)
    (l : List (String × β)) (h : l.any (fun p => p.1 == k) = false) :
    mapInsert k v l = (k, v) :: l := by
  unfold mapInsert
  congr 1
  rw [List.filter_eq_self]
  intro p hp
  rw [List.any_eq_false] at h
  simpa using h p hp

/-- The registry invariant: keys are pairwise distinct, every key equals the
stored agent's `name` field, and stored addresses are pairwise distinct. -/
def RegistryOk (l : List (String × AgentTypeIsActive)) : Prop :=
  (l.map Prod.fst).Nodup ∧ (∀ p ∈ l, p.1 = p.2.name) ∧
    (l.map (fun p => p.2.address)).Nodup

theorem registryOk_cons (l : List (String × AgentTypeIsActive))
    (v : AgentTypeIsActive)
    (hnm : l.any (fun p => p.1 == v.name) = false)
    (had : l.any (fun p => p.2.address == v.address) = false)
    (h : RegistryOk l) : RegistryOk ((v.name, v) :: l) := by
  obtain ⟨hk, hkn, ha⟩ := h
  rw [List.any_eq_false] at hnm had
  refine ⟨?_, ?_, ?_⟩
  · rw [List.map_cons, List.nodup_cons]
    refine ⟨?_, hk⟩
    intro hmem
    obtain ⟨p, hp, hpeq⟩ := List.mem_map.mp hmem
    exact hnm p hp (by simpa using hpeq)
  · intro p hp
    rcases List.mem_cons.mp hp with h1 | h2
    · subst h1; rfl
    · exact hkn p h2
  · rw [List.map_cons, List.nodup_cons]
    refine ⟨?_, ha⟩
    intro hmem
    obtain ⟨p, hp, hpeq⟩ := List.mem_map.mp hmem
    exact had p hp (by simpa using hpeq)

theorem registryOk_activate (m : SimulationManager) (a : AgentTypeNotActive)
    (addr : Address) (h : RegistryOk m.agents) :
    RegistryOk ((m.activate_agent a addr).2).agents := by
  unfold SimulationManager.activate_agent
  by_cases h1 : m.agents.any (fun p => p.2.address == addr) = true
  · simpa [h1] using h
  · rw [Bool.not_eq_true] at h1
    by_cases h2 : m.agents.any (fun p => p.1 == a.name) = true
    · simpa [h1, h2] using h
    · rw [Bool.not_eq_true] at h2
      cases a with
      | User u =>
          have h2' : m.agents.any (fun p => p.1 == u.name) = false := h2
          simp only [AgentTypeNotActive.name, h1, h2', Bool.false_eq_true,
            if_false]
          rw [mapInsert_absent _ _ _ h2']
          exact registryOk_cons m.agents
            (AgentTypeIsActive.User
              ⟨u.name, addr, AccountInfo.default, ⟨U64_MAX, 0⟩,
                m.nextChannel, u.event_filters⟩) h2' h1 h
      | SimpleArbitrageur sa =>
          have h2' : m.agents.any (fun p => p.1 == sa.name) = false := h2
          simp only [AgentTypeNotActive.name, h1, h2', Bool.false_eq_true,
            if_false]
          rw [mapInsert_absent _ _ _ h2']
          exact registryOk_cons m.agents
            (AgentTypeIsActive.SimpleArbitrageur
              ⟨sa.name, addr, AccountInfo.default, ⟨U64_MAX, 0⟩,
                m.nextChannel, sa.event_filters, sa.prices⟩) h2' h1 h

theorem registryOk_new : RegistryOk SimulationManager.new.agents := by
  refine ⟨?_, ?_, ?_⟩ <;> decide

theorem registryOk_run (m : SimulationManager)
    (reqs : List (AgentTypeNotActive × Address)) (h : RegistryOk m.agents) :
    RegistryOk (runActivations m reqs).agents := by
  induction reqs generalizing m with
  | nil => exact h
  | cons r rest ih =>
      exact ih _ (registryOk_activate m r.1 r.2 h)

/-- C1: for every sequence of `activate_agent` calls starting from a freshly
constructed `SimulationManager`, the agents registry never contains two
agents with the same name and never two agents with the same address. -/
theorem registry_unique_names_and_addresses
    (reqs : List (AgentTypeNotActive × Address)) :
    ((runActivations SimulationManager.new reqs).agents.map
        (fun p => p.2.name)).Nodup ∧
      ((runActivations SimulationManager.new reqs).agents.map
        (fun p => p.2.address)).Nodup := by
  obtain ⟨hk, hkn, ha⟩ :=
    registryOk_run SimulationManager.new reqs registryOk_new
  refine ⟨?_, ha⟩
  have hmap : (runActivations SimulationManager.new reqs).agents.map
      (fun p => p.2.name) =
      (runActivations SimulationManager.new reqs).agents.map Prod.fst := by
    apply List.map_congr_left
    intro p hp
    exact (hkn p hp).symm
  rw [hmap]
  exact hk

/-- C9: for every entry of the agents registry, the map key equals the stored
agent's `name` field, after construction and after any sequence of
`activate_agent` calls. -/
theorem registry_key_matches_agent_name
    (reqs : List (AgentTypeNotActive × Address)) :
    (runActivations SimulationManager.new reqs).agents.all
      (fun p => p.1 == p.2.name) = true := by
  obtain ⟨-, hkn, -⟩ :=
    registryOk_run SimulationManager.new reqs registryOk_new
  rw [List.all_eq_true]
  intro p hp
  exact beq_iff_eq.mpr (hkn p hp)

/-- C2: whenever `activate_agent` returns an error, the manager's state —
registry, backend accounts, channel senders, channel counter — is exactly
the state before the call. -/
theorem activate_agent_error_leaves_state (m : SimulationManager)
    (a : AgentTypeNotActive) (addr : Address) (e : ManagerError)
    (h : (m.activate_agent a addr).1 = Except.error e) :
    (m.activate_agent a addr).2 = m := by
  unfold SimulationManager.activate_agent at h ⊢
  by_cases h1 : m.agents.any (fun p => p.2.address == addr) = true
  · simp [h1]
  · rw [Bool.not_eq_true] at h1
    by_cases h2 : m.agents.any (fun p => p.1 == a.name) = true
    · simp [h1, h2]
    · rw [Bool.not_eq_true] at h2
      simp [h1, h2] at h

/-- A not-active user named alice, used to exercise the theorems on concrete
states. -/
def aliceNotActive : AgentTypeNotActive :=
  AgentTypeNotActive.User (User.new "alice" none)

theorem activate_agent_error_leaves_state_witness :
    (SimulationManager.new.activate_agent aliceNotActive (fromLowU64BE 1)).1 =
      Except.error
        ⟨"Agent with that address already exists in the simulation environment.",
          none⟩ ∧
      (SimulationManager.new.activate_agent aliceNotActive
        (fromLowU64BE 1)).2 = SimulationManager.new :=
  ⟨rfl,
    activate_agent_error_leaves_state SimulationManager.new aliceNotActive
      (fromLowU64BE 1)
      ⟨"Agent with that address already exists in the simulation environment.",
        none⟩ rfl⟩

/-- C3: `SimulationManager::new` (and `Default::default`) yields a manager
whose registry holds exactly one agent: a `User` named admin at address 1
(`B160::from_low_u64_be(1)`), and the internal activation of this admin
returns `Ok`. -/
theorem manager_new_admin :
    (SimulationManager.empty.activate_agent
        (AgentTypeNotActive.User (User.new "admin" none)) (fromLowU64BE 1)).1 =
      Except.ok () ∧
      SimulationManager.new.agents =
        [("admin", AgentTypeIsActive.User
          ⟨"admin", 1, AccountInfo.default, ⟨U64_MAX, 0⟩, 0, none⟩)] ∧
      SimulationManager.defaultManager = SimulationManager.new :=
  ⟨rfl, by decide, rfl⟩

/-- C4: `unpack_execution` on a success-shaped result returns the payload
bytes unchanged, both for a call return and for a creation return (whose
constructor address is discarded). -/
theorem unpack_execution_success (m : SimulationManager) (reason gu gr : Nat)
    (logs : List Nat) (P : Bytes) (caddr : Option Address) :
    (m.unpack_execution (ExecutionResult.Success reason gu gr logs
        (Output.Call P))).1 = Except.ok P ∧
      (m.unpack_execution (ExecutionResult.Success reason gu gr logs
        (Output.Create P caddr))).1 = Except.ok P :=
  ⟨rfl, rfl⟩

/-- C10: `unpack_execution` is a pure function of the execution result — two
managers in any states produce identical results — and it leaves the manager
state unchanged. -/
theorem unpack_execution_pure (m₁ m₂ : SimulationManager)
    (r : ExecutionResult) :
    (m₁.unpack_execution r).1 = (m₂.unpack_execution r).1 ∧
      (m₁.unpack_execution r).2 = m₁ :=
  ⟨rfl, rfl⟩

/-- C5: `unpack_execution` on a revert-shaped result returns an error whose
message is the revert message embedding the renderings of the payload and of
the gas used (both occur in the message), and whose carried output is
exactly `some P`. -/
theorem unpack_execution_revert (m : SimulationManager) (P : Bytes) (g : Nat) :
    (m.unpack_execution (ExecutionResult.Revert P g)).1 =
      Except.error ⟨revertMessage P g, some P⟩ ∧
      (bytesDebug P).data <:+: (revertMessage P g).data ∧
      (Nat.repr g).data <:+: (revertMessage P g).data := by
  refine ⟨rfl, ?_, ?_⟩
  · refine ⟨"This call reverted with output ".data,
      (" and used " ++ Nat.repr g ++ " gas.").data, ?_⟩
    simp [revertMessage, String.data_append, List.append_assoc]
  · refine
      ⟨("This call reverted with output " ++ bytesDebug P ++
          " and used ").data, " gas.".data, ?_⟩
    simp [revertMessage, String.data_append, List.append_assoc]

/-- C6: `unpack_execution` on a halt-shaped result returns an error whose
message is the halt message embedding the renderings of the halt reason and
of the gas used (both occur in the message), and which carries no payload. -/
theorem unpack_execution_halt (m : SimulationManager) (r : HaltReason)
    (g : Nat) :
    (m.unpack_execution (ExecutionResult.Halt r g)).1 =
      Except.error ⟨haltMessage r g, none⟩ ∧
      (haltDebug r).data <:+: (haltMessage r g).data ∧
      (Nat.repr g).data <:+: (haltMessage r g).data := by
  refine ⟨rfl, ?_, ?_⟩
  · refine ⟨"This call halted for ".data,
      (" and used " ++ Nat.repr g ++ " gas.").data, ?_⟩
    simp [haltMessage, String.data_append, List.append_assoc]
  · refine ⟨("This call halted for " ++ haltDebug r ++ " and used ").data,
      " gas.".data, ?_⟩
    simp [haltMessage, String.data_append, List.append_assoc]

/-- C7: the duplicate-address check runs before the duplicate-name check:
any candidate whose address collides with an existing agent is rejected with
the duplicate-address error, whatever its name. -/
theorem activate_agent_address_check_first (m : SimulationManager)
    (a : AgentTypeNotActive) (addr : Address)
    (h : m.agents.any (fun p => p.2.address == addr) = true) :
    (m.activate_agent a addr).1 =
      Except.error
        ⟨"Agent with that address already exists in the simulation environment.",
          none⟩ := by
  unfold SimulationManager.activate_agent
  simp [h]

/-- A second not-active user named admin: both its name and the admin address
collide with the freshly constructed manager's admin. -/
def adminClone : AgentTypeNotActive :=
  AgentTypeNotActive.User (User.new "admin" none)

theorem activate_agent_address_check_first_witness :
    SimulationManager.new.agents.any
        (fun p => p.2.address == fromLowU64BE 1) = true ∧
      (SimulationManager.new.activate_agent adminClone (fromLowU64BE 1)).1 =
        Except.error
          ⟨"Agent with that address already exists in the simulation environment.",
            none⟩ :=
  ⟨by decide,
    activate_agent_address_check_first SimulationManager.new adminClone
      (fromLowU64BE 1) (by decide)⟩

/-- C8: every successful activation stores, under the candidate's name, an
active agent that keeps the candidate's name, event filters and (for an
arbitrageur) prices table, receives the freshly created channel's receive
end, gets the placeholder transact settings (maximal gas limit, zero gas
price), and sits at the requested address — for either agent kind. -/
theorem activate_agent_materializes_fields (m : SimulationManager)
    (a : AgentTypeNotActive) (addr : Address)
    (h : (m.activate_agent a addr).1 = Except.ok ()) :
    ∃ ag : AgentTypeIsActive,
      lookupAgent ((m.activate_agent a addr).2).agents a.name = some ag ∧
        ag.name = a.name ∧
        ag.event_filters = a.event_filters ∧
        ag.pricesOpt = a.pricesOpt ∧
        ag.event_receiver = m.nextChannel ∧
        ag.transact_settings = ⟨U64_MAX, 0⟩ ∧
        ag.address = addr := by
  unfold SimulationManager.activate_agent at h ⊢
  by_cases h1 : m.agents.any (fun p => p.2.address == addr) = true
  · simp [h1] at h
  · rw [Bool.not_eq_true] at h1
    by_cases h2 : m.agents.any (fun p => p.1 == a.name) = true
    · simp [h1, h2] at h
    · rw [Bool.not_eq_true] at h2
      cases a with
      | User u =>
          refine ⟨AgentTypeIsActive.User
            ⟨u.name, addr, AccountInfo.default, ⟨U64_MAX, 0⟩,
              m.nextChannel, u.event_filters⟩, ?_, rfl, rfl, rfl, rfl, rfl,
            rfl⟩
          simp only [AgentTypeNotActive.name] at h2
          simp [AgentTypeNotActive.name, h1, h2, mapInsert, lookupAgent]
      | SimpleArbitrageur sa =>
          refine ⟨AgentTypeIsActive.SimpleArbitrageur
            ⟨sa.name, addr, AccountInfo.default, ⟨U64_MAX, 0⟩,
              m.nextChannel, sa.event_filters, sa.prices⟩, ?_, rfl, rfl, rfl,
            rfl, rfl, rfl⟩
          simp only [AgentTypeNotActive.name] at h2
          simp [AgentTypeNotActive.name, h1, h2, mapInsert, lookupAgent]

theorem activate_agent_materializes_fields_witness :
    (SimulationManager.new.activate_agent aliceNotActive
        (fromLowU64BE 2)).1 = Except.ok () ∧
      (∃ ag : AgentTypeIsActive,
        lookupAgent ((SimulationManager.new.activate_agent aliceNotActive
            (fromLowU64BE 2)).2).agents aliceNotActive.name = some ag ∧
          ag.name = aliceNotActive.name ∧
          ag.event_filters = aliceNotActive.event_filters ∧
          ag.pricesOpt = aliceNotActive.pricesOpt ∧
          ag.event_receiver = SimulationManager.new.nextChannel ∧
          ag.transact_settings = ⟨U64_MAX, 0⟩ ∧
          ag.address = fromLowU64BE 2) :=
  ⟨rfl,
    activate_agent_materializes_fields SimulationManager.new aliceNotActive
      (fromLowU64BE 2) rfl⟩
